import Mathlib

/-!
Verification of `functions/totals/hfrprogs_mat_to_netcdf4.py` from the
`codar_processing` repository: conversion of HFRProgs CODAR total-vector MAT
structs into CF/NCEI-compliant gridded netCDF datasets.

The Python program is shallowly embedded below.  Floating-point data values
and coordinates are modelled as rational numbers; the missing-value sentinel
(`NaN`) is modelled as `none` in `Option ℚ`.  Gridded arrays are lists of
lists (row-major, `lat × lon`), matching the numpy arrays of the source.
Helpers of the repository that live outside the converted module
(`gridded_index`, the `configs` module) are modelled from the specification
and marked as such in their doc comments.
-/

namespace Codar

/-- A calendar timestamp, standing for the Python `datetime` parsed from the
source filename by `timestamp_from_lluv_filename`. -/
structure Timestamp where
  year : Nat
  month : Nat
  day : Nat
  hour : Nat
  minute : Nat
  second : Nat
  deriving DecidableEq

/-- Zero-padding to two digits, as in `strftime` fields `%m %d %H %M %S`. -/
def pad2 (n : Nat) : String :=
  if n < 10 then "0" ++ toString n else toString n

/-- Zero-padding to four digits, as in the `strftime` field `%Y`. -/
def pad4 (n : Nat) : String :=
  if n < 10 then "000" ++ toString n
  else if n < 100 then "00" ++ toString n
  else if n < 1000 then "0" ++ toString n
  else toString n

/-- `time.strftime(...)` with format `%Y%m%dT%H%M%SZ` (line 70 of the source). -/
def timeString (t : Timestamp) : String :=
  pad4 t.year ++ pad2 t.month ++ pad2 t.day ++ "T" ++
    pad2 t.hour ++ pad2 t.minute ++ pad2 t.second ++ "Z"

/-- `os.path.join(save_dir, file_name)` for a relative second component. -/
def joinPath (dir fname : String) : String :=
  if dir = "" then fname
  else if dir.endsWith "/" then dir ++ fname
  else dir ++ "/" ++ fname

/-- Lines 58-63 of the source: the resolution of the `domain` argument.  An
empty string models a falsy (absent) override, mirroring the default `[]`.
A non-empty override is replaced by the constant `'MARA'`; only an absent
override consults the file's `DomainName`, falling back to `'MARA'` when
that too is empty. -/
def resolveDomain (domainArg : String) (fileDomainName : String) : String :=
  if domainArg = "" then
    if fileDomainName = "" then "MARA" else fileDomainName
  else "MARA"

/-- Line 72 of the source: `'RU_{}_{}.nc'.format(domain, time_string)`. -/
def file_name (domain : String) (t : Timestamp) : String :=
  "RU_" ++ domain ++ "_" ++ timeString t ++ ".nc"

/-- `np.unique` (lines 136-137): deduplicated values in ascending order. -/
def npUnique (xs : List ℚ) : List ℚ :=
  List.insertionSort (· ≤ ·) xs.dedup

/-- The first output of `np.meshgrid(lon, lat)` (line 138): a matrix of shape
`(len(lat), len(lon))`; only its shape is consumed downstream (line 153). -/
def meshgridX (lon lat : List ℚ) : List (List ℚ) :=
  lat.map (fun _ => lon)

/-- A 2-d array of data cells; `none` models `NaN`. -/
abbrev Cells := List (List (Option ℚ))

/-- `np.matlib.tile(np.nan, x.shape)` (line 153): an all-missing array with
the shape of `x`. -/
def tileNaN (x : List (List ℚ)) : Cells :=
  x.map (fun row => row.map (fun _ => (none : Option ℚ)))

/-- Modelled from the spec: the per-axis nearest-index search inside
`gridded_index` of `codar_processing.calc`, which is not under `src/`.
Per spec section 4.1 each scattered point receives the index of the nearest
axis value by minimum absolute coordinate difference, independently per
axis, with ties broken by the first (lowest) index. -/
def nearestIndex (axis : List ℚ) (c : ℚ) : Nat :=
  match axis with
  | [] => 0
  | a :: rest =>
    (rest.enum.foldl
      (fun best p => if |p.2 - c| < best.2 then (p.1 + 1, |p.2 - c|) else best)
      ((0 : Nat), |a - c|)).1

/-- Modelled from the spec: `gridded_index` of `codar_processing.calc` (not
under `src/`), as called on line 150.  Returns, for every scattered point,
the column index into the longitude axis and the row index into the latitude
axis of its nearest grid cell. -/
def gridded_index (lon lat : List ℚ) (ptLon ptLat : List ℚ) : List Nat × List Nat :=
  (ptLon.map (fun c => nearestIndex lon c), ptLat.map (fun c => nearestIndex lat c))

/-- A single element assignment `a[i][j] = v`.  Out-of-range indices leave
the array unchanged (they do not occur for indices produced by
`gridded_index` on a non-empty grid). -/
def setCell (a : Cells) (i j : Nat) (v : ℚ) : Cells :=
  match a[i]? with
  | some row => a.set i (row.set j (some v))
  | none => a

/-- The fancy-indexing assignment `temp_data[(y_ind, x_ind)] = data` of line
154: element assignments performed in input array order, so that for
colliding indices the last assignment wins. -/
def scatter (a : Cells) (obs : List (Nat × Nat × ℚ)) : Cells :=
  obs.foldl (fun acc o => setCell acc o.1 o.2.1 o.2.2) a

/-- Reading cell `(i, j)`: the outer `none` means out of bounds, the inner
`none` a missing value. -/
def cellAt (a : Cells) (i j : Nat) : Option (Option ℚ) :=
  (a[i]?).bind (fun row => row[j]?)

/-- Pairing of the index vectors with the data vector for the assignment of
line 154. -/
def zipObs (y_ind x_ind : List Nat) (vals : List ℚ) : List (Nat × Nat × ℚ) :=
  y_ind.zip (x_ind.zip vals)

/-- `np.expand_dims(a, axis=0)` (line 159). -/
def expand_dims (a : α) : List α := [a]

/-- A gridded variable after the two `expand_dims` of lines 156-161:
dimensions `(time, z, lat, lon)`. -/
abbrev Var4 := List (List Cells)

/-- Lines 156-161: the 2-d grid with two singleton dimensions prepended. -/
def toVar4 (g : Cells) : Var4 := expand_dims (expand_dims g)

/-- Reading one cell of a 4-d variable; outer `none` means out of bounds. -/
def cell4 (a : Var4) (t z i j : Nat) : Option (Option ℚ) :=
  ((a[t]?).bind (fun p => p[z]?)).bind (fun g => cellAt g i j)

/-- The names of the six gridded data variables of the dataset
(lines 141-146 and 168-173). -/
inductive VarName where
  | u
  | v
  | u_err
  | v_err
  | uv_covariance
  | num_radials
  deriving DecidableEq

/-- The global attributes of the output dataset that the converter itself
computes (lines 190-199); the user-supplied attributes are carried through
unmodified. -/
structure GlobalAttrs where
  user_attributes : List (String × String)
  time_coverage_start : Timestamp
  time_coverage_end : Timestamp
  geospatial_lat_min : ℚ
  geospatial_lat_max : ℚ
  geospatial_lon_min : ℚ
  geospatial_lon_max : ℚ
  method : String
  deriving DecidableEq

/-- The assembled output dataset (lines 166-199): coordinate axes, the six
gridded variables, the processing-parameter vector and the global
attributes. -/
structure Dataset where
  lonAxis : List ℚ
  latAxis : List ℚ
  zAxis : List ℚ
  timeAxis : List Timestamp
  u : Var4
  v : Var4
  u_err : Var4
  v_err : Var4
  uv_covariance : Var4
  num_radials : Var4
  processing_parameters : List ℚ
  attrs : GlobalAttrs
  deriving DecidableEq

/-- `ds[k]` for the six gridded variables. -/
def getVar (ds : Dataset) : VarName → Var4
  | .u => ds.u
  | .v => ds.v
  | .u_err => ds.u_err
  | .v_err => ds.v_err
  | .uv_covariance => ds.uv_covariance
  | .num_radials => ds.num_radials

/-- One cell of `xarray`'s `where`: the target cell is kept where the
flagged variable's cell holds a value at most the threshold, and becomes
missing where it exceeds the threshold or is itself missing (a `NaN`
comparison is false). -/
def maskCellOp (thr : ℚ) (kc wc : Option ℚ) : Option ℚ :=
  match kc with
  | some x => if x ≤ thr then wc else none
  | none => none

/-- Elementwise combination of two 4-d variables of identical shape. -/
def zip4 (f : Option ℚ → Option ℚ → Option ℚ) (a b : Var4) : Var4 :=
  List.zipWith (List.zipWith (List.zipWith (List.zipWith f))) a b

/-- The effect of `ds.where(ds[k] <= v)` on one variable `w` of the dataset:
`w` masked elementwise by the flagged variable's cells. -/
def whereLE (keyv : Var4) (thr : ℚ) (w : Var4) : Var4 :=
  zip4 (maskCellOp thr) keyv w

/-- Line 182, `ds = ds.where(ds[k] <= v)`: `xarray.Dataset.where` applies
the boolean condition to every data variable of the dataset, so all six
gridded variables are masked by the flagged variable's cells. -/
def applyFlag (ds : Dataset) (k : VarName) (thr : ℚ) : Dataset :=
  let m := getVar ds k
  { ds with
    u := whereLE m thr ds.u
    v := whereLE m thr ds.v
    u_err := whereLE m thr ds.u_err
    v_err := whereLE m thr ds.v_err
    uv_covariance := whereLE m thr ds.uv_covariance
    num_radials := whereLE m thr ds.num_radials }

/-- Lines 180-182: the flag pairs applied in order. -/
def applyFlags (ds : Dataset) (flags : List (VarName × ℚ)) : Dataset :=
  flags.foldl (fun d p => applyFlag d p.1 p.2) ds

/-- The method-specific fields of the OI branch (lines 88-111) of the input
`TUV` struct; absent as a whole when any of its fields is missing, which
raises `AttributeError` in the source. -/
structure OIFields where
  Uerr : List ℚ
  Verr : List ℚ
  UVCovariance : List ℚ
  TotalsNumRads : List ℚ
  MinNumRads : ℚ
  MinNumSites : ℚ
  mdlvar : ℚ
  errvar : ℚ
  sx : ℚ
  sy : ℚ
  tempthresh : ℚ
  deriving DecidableEq

/-- The method-specific fields of the LSQ branch (lines 113-130). -/
structure LSQFields where
  Uerr : List ℚ
  Verr : List ℚ
  UVCovariance : List ℚ
  TotalsNumRads : List ℚ
  MinNumRads : ℚ
  MinNumSites : ℚ
  spatthresh : ℚ
  tempthresh : ℚ
  deriving DecidableEq

/-- The `TUV` struct of the loaded MAT file (fields read on lines 58-102 and
115-124).  `LonLat` holds the scattered observation coordinates, row `k`
belonging to the `k`-th entries of the data vectors.  Every field read
inside the `try` block of lines 75-133 is `Option`-valued: `none` models the
`AttributeError` its absence raises there. -/
structure TUV where
  DomainName : String
  LonLat : Option (List (ℚ × ℚ))
  U : Option (List ℚ)
  V : Option (List ℚ)
  UUnits : Option String
  VUnits : Option String
  maxspd : Option ℚ
  oi : Option OIFields
  lsq : Option LSQFields
  deriving DecidableEq

/-- The `method` parameter: `'oi'` or `'lsq'`. -/
inductive Method where
  | oi
  | lsq
  deriving DecidableEq

/-- The data extracted by the method branch of the `try` block
(lines 88-130): the error variables, the radial counts and the
processing-parameter vector with its description. -/
structure MethodFields where
  u_err : List ℚ
  v_err : List ℚ
  uv_covariance : List ℚ
  num_rads : List ℚ
  processing_parameters : List ℚ
  processing_parameters_info : String
  deriving DecidableEq

/-- The `processing_parameters_info` text of the OI branch (lines 104-111). -/
def oiParametersInfo : String :=
  "1) Maximum Total Speed Threshold (cm s-1)\n" ++
  "2) Minimum number of radial sites\n" ++
  "3) Minimum number of radial vectors\n" ++
  "4) Temporal search window for radial solutions (Fraction of a day)\n" ++
  "5) Decorrelation scales in the north direction\n" ++
  "6) Decorrelation scales in the east direction\n" ++
  "7) Signal variance of the surface current fields (cm2 s-2)\n" ++
  "8) Data error variance of the input radial velocities (cm2 s-2)\n"

/-- The `processing_parameters_info` text of the LSQ branch (lines 126-130). -/
def lsqParametersInfo : String :=
  "1) Maximum Total Speed Threshold (cm s-1)\n" ++
  "2) Minimum number of radial sites.\n" ++
  "3) Minimum number of radial vectors.\n" ++
  "4) Temporal search window for radial solutions (Fractions of a day)\n" ++
  "5) Spatial search radius for radial solutions (km)\n"

/-- The method branch of the `try` block (lines 88-130): the method-specific
field accesses.  `none` models the `AttributeError` raised when a required
field is missing from the struct; `maxspd` was read earlier (line 86). -/
def extractMethod (maxspd : ℚ) (tuv : TUV) : Method → Option MethodFields
  | .oi =>
    match tuv.oi with
    | none => none
    | some f =>
      some
        { u_err := f.Uerr
          v_err := f.Verr
          uv_covariance := f.UVCovariance
          num_rads := f.TotalsNumRads
          processing_parameters :=
            [maxspd, f.MinNumSites, f.MinNumRads, f.tempthresh,
              f.sx, f.sy, f.mdlvar, f.errvar]
          processing_parameters_info := oiParametersInfo }
  | .lsq =>
    match tuv.lsq with
    | none => none
    | some f =>
      some
        { u_err := f.Uerr
          v_err := f.Verr
          uv_covariance := f.UVCovariance
          num_rads := f.TotalsNumRads
          processing_parameters :=
            [maxspd, f.MinNumSites, f.MinNumRads, f.tempthresh, f.spatthresh]
          processing_parameters_info := lsqParametersInfo }

/-- Everything the `try` block of lines 75-133 reads from the struct. -/
structure Extracted where
  lonlat : List (ℚ × ℚ)
  u : List ℚ
  v : List ℚ
  u_units : String
  v_units : String
  maxspd : ℚ
  mf : MethodFields
  deriving DecidableEq

/-- The whole `try` block of lines 75-133: the shared field accesses of
lines 78-86 followed by the method branch.  `none` models the
`AttributeError` path of lines 131-133 (any required field missing). -/
def extractAll (tuv : TUV) (method : Method) : Option Extracted :=
  match tuv.LonLat, tuv.U, tuv.V, tuv.UUnits, tuv.VUnits, tuv.maxspd with
  | some lonlat, some uvals, some vvals, some uu, some vu, some ms =>
    (extractMethod ms tuv method).map (fun mf =>
      { lonlat := lonlat
        u := uvals
        v := vvals
        u_units := uu
        v_units := vu
        maxspd := ms
        mf := mf })
  | _, _, _, _, _, _ => none

/-- Modelled from the spec: `configs_default.netcdf_global_attributes` of the
`configs` module, which is not under `src/`.  Per spec sections 4.2 and 6 it
merges the user-supplied global attributes with the dataset time coverage;
its process-time-dependent fields (e.g. a creation date) are outside this
model, matching the determinism claim's exception for them. -/
def netcdf_global_attributes (ua : List (String × String)) (t0 t1 : Timestamp) :
    GlobalAttrs :=
  { user_attributes := ua
    time_coverage_start := t0
    time_coverage_end := t1
    geospatial_lat_min := 0
    geospatial_lat_max := 0
    geospatial_lon_min := 0
    geospatial_lon_max := 0
    method := "" }

/-- Lines 196-199: the `method` global attribute. -/
def methodLabel : Method → String
  | .oi => "Optimal Interpolation"
  | .lsq => "Unweighted Least Squares"

/-- `np.ndarray.min` as used on lines 192-195 (reduction over a non-empty
axis array; the value at `[]` is irrelevant, the axes are non-empty for any
non-empty grid file). -/
def npMin (l : List ℚ) : ℚ :=
  match l with
  | [] => 0
  | a :: r => r.foldl min a

/-- `np.ndarray.max` as used on lines 192-195. -/
def npMax (l : List ℚ) : ℚ :=
  match l with
  | [] => 0
  | a :: r => r.foldl max a

/-- The data vector of each gridded variable (the `data_dict` of
lines 141-146). -/
def varVals (ex : Extracted) : VarName → List ℚ
  | .u => ex.u
  | .v => ex.v
  | .u_err => ex.mf.u_err
  | .v_err => ex.mf.v_err
  | .uv_covariance => ex.mf.uv_covariance
  | .num_radials => ex.mf.num_rads

/-- The observations (row index, column index, value) scattered for one data
vector, with the grid indices of line 150. -/
def obsOf (grid : List (ℚ × ℚ)) (ex : Extracted) (vals : List ℚ) :
    List (Nat × Nat × ℚ) :=
  let lon := npUnique (grid.map Prod.fst)
  let lat := npUnique (grid.map Prod.snd)
  let inds := gridded_index lon lat (ex.lonlat.map Prod.fst) (ex.lonlat.map Prod.snd)
  zipObs inds.2 inds.1 vals

/-- Lines 136-178: the dataset before threshold masking — unique sorted
axes, the six data variables gridded onto the all-missing mesh, the
singleton depth and time axes. -/
def assembleRaw (grid : List (ℚ × ℚ)) (ex : Extracted) (time : Timestamp)
    (user_attributes : List (String × String)) : Dataset :=
  let lon := npUnique (grid.map Prod.fst)
  let lat := npUnique (grid.map Prod.snd)
  { lonAxis := lon
    latAxis := lat
    zAxis := [0]
    timeAxis := [time]
    u := toVar4 (scatter (tileNaN (meshgridX lon lat)) (obsOf grid ex ex.u))
    v := toVar4 (scatter (tileNaN (meshgridX lon lat)) (obsOf grid ex ex.v))
    u_err := toVar4 (scatter (tileNaN (meshgridX lon lat)) (obsOf grid ex ex.mf.u_err))
    v_err := toVar4 (scatter (tileNaN (meshgridX lon lat)) (obsOf grid ex ex.mf.v_err))
    uv_covariance :=
      toVar4 (scatter (tileNaN (meshgridX lon lat)) (obsOf grid ex ex.mf.uv_covariance))
    num_radials :=
      toVar4 (scatter (tileNaN (meshgridX lon lat)) (obsOf grid ex ex.mf.num_rads))
    processing_parameters := []
    attrs := netcdf_global_attributes user_attributes time time }

/-- Lines 136-199: the in-memory assembly of the output dataset from the
successfully extracted inputs — the pre-masking dataset, then threshold
masking, the processing-parameter vector and the global attributes. -/
def assemble (grid : List (ℚ × ℚ)) (ex : Extracted)
    (time : Timestamp) (flags : List (VarName × ℚ))
    (user_attributes : List (String × String)) (method : Method) : Dataset :=
  let lon := npUnique (grid.map Prod.fst)
  let lat := npUnique (grid.map Prod.snd)
  let ds1 := applyFlags (assembleRaw grid ex time user_attributes) flags
  let ga0 := netcdf_global_attributes user_attributes time time
  let ga :=
    { ga0 with
      geospatial_lat_min := npMin lat
      geospatial_lat_max := npMax lat
      geospatial_lon_min := npMin lon
      geospatial_lon_max := npMax lon
      method := methodLabel method }
  { ds1 with processing_parameters := ex.mf.processing_parameters, attrs := ga }

/-- The observable outcome of `main`: either an error was logged and the
function returned without writing anything, or a dataset was written to the
given path. -/
inductive MainResult where
  | errorLogged (msg : String)
  | written (path : String) (ds : Dataset)
  deriving DecidableEq

/-- The `main` function of the source (lines 39-362).  `matData` is the
result of `loadmat` (`none` models a load failure, line 54); `time` stands
for the timestamp parsed from the source filename by
`timestamp_from_lluv_filename` (line 65, helper not under `src/`);
`domain` is the optional domain-name override (empty string when absent). -/
def main (grid : List (ℚ × ℚ)) (matData : Option TUV) (save_dir : String)
    (user_attributes : List (String × String)) (time : Timestamp)
    (flags : List (VarName × ℚ)) (domain : String) (method : Method) : MainResult :=
  match matData with
  | none => .errorLogged "MAT file could not be loaded."
  | some tuv =>
    let dom := resolveDomain domain tuv.DomainName
    let path := joinPath save_dir (file_name dom time)
    match extractAll tuv method with
    | none => .errorLogged "MAT file missing variable needed to create netCDF4 file"
    | some ex =>
      .written path (assemble grid ex time flags user_attributes method)

/-- The dimension statement for a 4-d variable: shape `(t, z, n, m)`, with
every plane, grid and row of the expected length. -/
def hasShape4 (a : Var4) (t z n m : Nat) : Prop :=
  a.length = t ∧ ∀ p ∈ a, p.length = z ∧ ∀ g ∈ p, g.length = n ∧ ∀ r ∈ g, r.length = m

/-- All six gridded variables of a dataset have the singleton time and depth
dimensions and grid shape `(n, m)`. -/
def dsShape (ds : Dataset) (n m : Nat) : Prop :=
  ∀ w : VarName, hasShape4 (getVar ds w) 1 1 n m

/-! ### Concrete fixtures for witnesses and counterexamples -/

/-- A one-point grid file: single longitude `0`, single latitude `0`. -/
def exGrid : List (ℚ × ℚ) := [(0, 0)]

def exOI : OIFields :=
  { Uerr := [5], Verr := [0], UVCovariance := [0], TotalsNumRads := [1]
    MinNumRads := 0, MinNumSites := 0, mdlvar := 0, errvar := 0
    sx := 0, sy := 0, tempthresh := 0 }

def exLSQ : LSQFields :=
  { Uerr := [5], Verr := [0], UVCovariance := [0], TotalsNumRads := [1]
    MinNumRads := 0, MinNumSites := 0, spatthresh := 0, tempthresh := 0 }

/-- A complete one-observation input struct, processable under both methods.
The single observation sits at the only grid point, with `u = 0` and
`u_err = 5`. -/
def exTUV : TUV :=
  { DomainName := "BPU"
    LonLat := some [(0, 0)]
    U := some [0]
    V := some [0]
    UUnits := some "cm/s"
    VUnits := some "cm/s"
    maxspd := some 100
    oi := some exOI
    lsq := some exLSQ }

/-- `exTUV` with the OI branch missing. -/
def exTUVnoOI : TUV := { exTUV with oi := none }

/-- An input struct with two observations colliding on the only grid cell:
`u` values `3` then `7`. -/
def exTUVcollide : TUV :=
  { exTUV with
    LonLat := some [(0, 0), (0, 0)]
    U := some [3, 7]
    V := some [0, 0]
    oi := some
      { Uerr := [0, 0], Verr := [0, 0], UVCovariance := [0, 0]
        TotalsNumRads := [1, 1]
        MinNumRads := 0, MinNumSites := 0, mdlvar := 0, errvar := 0
        sx := 0, sy := 0, tempthresh := 0 } }

def exTime : Timestamp := ⟨2012, 1, 1, 0, 0, 0⟩

/-- The extraction of `exTUV` under the OI method. -/
def exExtractOI : Extracted :=
  { lonlat := [(0, 0)], u := [0], v := [0]
    u_units := "cm/s", v_units := "cm/s", maxspd := 100
    mf :=
      { u_err := [5], v_err := [0], uv_covariance := [0], num_rads := [1]
        processing_parameters := [100, 0, 0, 0, 0, 0, 0, 0]
        processing_parameters_info := oiParametersInfo } }

/-- The extraction of `exTUVcollide` under the OI method. -/
def exExtractCollide : Extracted :=
  { lonlat := [(0, 0), (0, 0)], u := [3, 7], v := [0, 0]
    u_units := "cm/s", v_units := "cm/s", maxspd := 100
    mf :=
      { u_err := [0, 0], v_err := [0, 0], uv_covariance := [0, 0], num_rads := [1, 1]
        processing_parameters := [100, 0, 0, 0, 0, 0, 0, 0]
        processing_parameters_info := oiParametersInfo } }

/-- Reads one cell of one variable of a written result (`none`: no output
was written, or the indices are out of bounds). -/
def outCell (r : MainResult) (w : VarName) (t z i j : Nat) : Option (Option (Option ℚ)) :=
  match r with
  | .errorLogged _ => none
  | .written _ ds => some (cell4 (getVar ds w) t z i j)

/-- The length of the `processing_parameters` vector of a written result. -/
def ppLen (r : MainResult) : Option Nat :=
  match r with
  | .errorLogged _ => none
  | .written _ ds => some ds.processing_parameters.length

/-- The observations of one data vector that the grid assignment maps to
cell `(i, j)`: the entries whose `gridded_index` row/column indices equal
`(i, j)`, in input array order. -/
def mappedAt (grid : List (ℚ × ℚ)) (ex : Extracted) (w : VarName) (i j : Nat) :
    List (Nat × Nat × ℚ) :=
  (obsOf grid ex (varVals ex w)).filter (fun o => decide (o.1 = i ∧ o.2.1 = j))

/-- The extraction of `exTUV` under the LSQ method. -/
def exExtractLSQ : Extracted :=
  { lonlat := [(0, 0)], u := [0], v := [0]
    u_units := "cm/s", v_units := "cm/s", maxspd := 100
    mf :=
      { u_err := [5], v_err := [0], uv_covariance := [0], num_rads := [1]
        processing_parameters := [100, 0, 0, 0, 0]
        processing_parameters_info := lsqParametersInfo } }

/-! ### Lemmas: reading cells of zipped and scattered arrays -/

theorem cellAt_zipWith (f : Option ℚ → Option ℚ → Option ℚ) (a b : Cells) (i j : Nat) :
    cellAt (List.zipWith (List.zipWith f) a b) i j =
      match cellAt a i j, cellAt b i j with
      | some x, some y => some (f x y)
      | _, _ => none := by
  unfold cellAt
  rw [List.getElem?_zipWith]
  cases ha : a[i]? <;> cases hb : b[i]? <;> simp [List.getElem?_zipWith]
  case some.some ra rb => cases ra[j]? <;> cases rb[j]? <;> rfl

theorem cell4_zip4 (f : Option ℚ → Option ℚ → Option ℚ) (a b : Var4) (t z i j : Nat) :
    cell4 (zip4 f a b) t z i j =
      match cell4 a t z i j, cell4 b t z i j with
      | some x, some y => some (f x y)
      | _, _ => none := by
  unfold cell4 zip4
  rw [List.getElem?_zipWith]
  cases ht : a[t]? <;> cases ht' : b[t]? <;> simp [List.getElem?_zipWith]
  case some.some pa pb =>
    cases hz : pa[z]? <;> cases hz' : pb[z]? <;>
      simp [List.getElem?_zipWith, hz, hz', cellAt_zipWith]

theorem length_setCell (a : Cells) (i j : Nat) (v : ℚ) :
    (setCell a i j v).length = a.length := by
  unfold setCell
  cases h : a[i]? <;> simp

theorem rows_setCell (P : Nat → Prop) {a : Cells} (hm : ∀ r ∈ a, P r.length)
    (i j : Nat) (v : ℚ) : ∀ r ∈ setCell a i j v, P r.length := by
  unfold setCell
  cases h : a[i]? with
  | none => exact hm
  | some row =>
    intro r hr
    rcases List.mem_or_eq_of_mem_set hr with h' | h'
    · exact hm r h'
    · subst h'
      rw [List.length_set]
      obtain ⟨hlt, heq⟩ := List.getElem?_eq_some_iff.mp h
      exact heq ▸ hm _ (List.getElem_mem hlt)

theorem cellAt_setCell_self {a : Cells} {i j : Nat} (hi : i < a.length)
    (hj : ∀ r ∈ a, j < r.length) (v : ℚ) :
    cellAt (setCell a i j v) i j = some (some v) := by
  unfold setCell cellAt
  cases h : a[i]? with
  | none =>
    rw [List.getElem?_eq_none_iff] at h
    omega
  | some row =>
    obtain ⟨hlt, heq⟩ := List.getElem?_eq_some_iff.mp h
    have hrow : j < row.length := hj row (heq ▸ List.getElem_mem hlt)
    rw [List.getElem?_set_self (by simpa using hi)]
    simpa using List.getElem?_set_self hrow

theorem cellAt_setCell_ne {a : Cells} {i j i' j' : Nat} (h : ¬(i = i' ∧ j = j'))
    (v : ℚ) : cellAt (setCell a i j v) i' j' = cellAt a i' j' := by
  unfold setCell cellAt
  cases hA : a[i]? with
  | none => rfl
  | some row =>
    by_cases hii : i = i'
    · subst hii
      have hjj : j ≠ j' := fun hn => h ⟨rfl, hn⟩
      have hlt : i < a.length := (List.getElem?_eq_some_iff.mp hA).1
      rw [List.getElem?_set_self hlt, hA]
      simp [List.getElem?_set_ne hjj]
    · rw [List.getElem?_set_ne hii]

theorem length_scatter (obs : List (Nat × Nat × ℚ)) :
    ∀ a : Cells, (scatter a obs).length = a.length := by
  induction obs with
  | nil => intro a; rfl
  | cons o rest ih =>
    intro a
    rw [show scatter a (o :: rest) = scatter (setCell a o.1 o.2.1 o.2.2) rest from rfl,
      ih, length_setCell]

theorem rows_scatter (P : Nat → Prop) (obs : List (Nat × Nat × ℚ)) :
    ∀ a : Cells, (∀ r ∈ a, P r.length) → ∀ r ∈ scatter a obs, P r.length := by
  induction obs with
  | nil => intro a ha; exact ha
  | cons o rest ih =>
    intro a ha
    rw [show scatter a (o :: rest) = scatter (setCell a o.1 o.2.1 o.2.2) rest from rfl]
    exact ih _ (rows_setCell P ha _ _ _)

theorem cellAt_scatter (i j : Nat) (obs : List (Nat × Nat × ℚ)) :
    ∀ a : Cells, i < a.length → (∀ r ∈ a, j < r.length) →
      cellAt (scatter a obs) i j =
        match (obs.filter fun o => decide (o.1 = i ∧ o.2.1 = j)).getLast? with
        | some o => some (some o.2.2)
        | none => cellAt a i j := by
  induction obs using List.reverseRecOn with
  | nil => intro a hi hj; simp [scatter]
  | append_singleton l o ih =>
    intro a hi hj
    have hsc : scatter a (l ++ [o]) = setCell (scatter a l) o.1 o.2.1 o.2.2 := by
      simp [scatter, List.foldl_append]
    rw [hsc, List.filter_append]
    by_cases hp : o.1 = i ∧ o.2.1 = j
    · have hcell : cellAt (setCell (scatter a l) o.1 o.2.1 o.2.2) i j =
          some (some o.2.2) := by
        obtain ⟨h1, h2⟩ := hp
        subst h1
        subst h2
        exact cellAt_setCell_self (by rwa [length_scatter])
          (rows_scatter _ l a hj) _
      rw [hcell]
      simp [List.filter_cons, hp, List.getLast?_concat]
    · rw [cellAt_setCell_ne hp, ih a hi hj]
      simp [List.filter_cons, hp]

theorem tileNaN_meshgrid (lon lat : List ℚ) :
    tileNaN (meshgridX lon lat) =
      lat.map (fun _ => lon.map (fun _ => (none : Option ℚ))) := by
  simp [tileNaN, meshgridX, List.map_map]

theorem length_tileNaN (lon lat : List ℚ) :
    (tileNaN (meshgridX lon lat)).length = lat.length := by
  rw [tileNaN_meshgrid]; simp

theorem rows_tileNaN (lon lat : List ℚ) :
    ∀ r ∈ tileNaN (meshgridX lon lat), r.length = lon.length := by
  rw [tileNaN_meshgrid]
  intro r hr
  obtain ⟨x, _, hx⟩ := List.mem_map.mp hr
  rw [← hx]
  simp

theorem cellAt_tileNaN (lon lat : List ℚ) {i j : Nat} (hi : i < lat.length)
    (hj : j < lon.length) : cellAt (tileNaN (meshgridX lon lat)) i j = some none := by
  rw [tileNaN_meshgrid]
  unfold cellAt
  rw [List.getElem?_map, List.getElem?_eq_getElem hi]
  simp [List.getElem?_map, List.getElem?_eq_getElem hj, List.getElem?_replicate, hj]

/-! ### Lemmas: the unique sorted axes -/

theorem npUnique_sorted (xs : List ℚ) : (npUnique xs).Sorted (· ≤ ·) :=
  List.sorted_insertionSort _ _

theorem npUnique_perm_dedup (xs : List ℚ) : List.Perm (npUnique xs) xs.dedup :=
  List.perm_insertionSort _ _

theorem npUnique_nodup (xs : List ℚ) : (npUnique xs).Nodup :=
  ((npUnique_perm_dedup xs).nodup_iff).mpr (List.nodup_dedup xs)

theorem mem_npUnique {q : ℚ} {xs : List ℚ} : q ∈ npUnique xs ↔ q ∈ xs := by
  rw [(npUnique_perm_dedup xs).mem_iff, List.mem_dedup]

theorem npUnique_ne_nil {xs : List ℚ} (h : xs ≠ []) : npUnique xs ≠ [] := by
  obtain ⟨a, ha⟩ := List.exists_mem_of_ne_nil xs h
  exact List.ne_nil_of_mem (mem_npUnique.mpr ha)

/-! ### Lemmas: the axis reductions of lines 192-195 -/

theorem foldl_min_le_init (r : List ℚ) : ∀ a : ℚ, r.foldl min a ≤ a := by
  induction r with
  | nil => intro a; exact le_refl a
  | cons b r ih => intro a; exact le_trans (ih (min a b)) (min_le_left a b)

theorem foldl_min_le_mem (r : List ℚ) : ∀ (a x : ℚ), x ∈ r → r.foldl min a ≤ x := by
  induction r with
  | nil => intro a x hx; cases hx
  | cons b r ih =>
    intro a x hx
    rcases List.mem_cons.mp hx with h | h
    · subst h
      exact le_trans (foldl_min_le_init r (min a x)) (min_le_right a x)
    · exact ih (min a b) x h

theorem foldl_min_mem (r : List ℚ) : ∀ a : ℚ, r.foldl min a = a ∨ r.foldl min a ∈ r := by
  induction r with
  | nil => intro a; exact Or.inl rfl
  | cons b r ih =>
    intro a
    rcases ih (min a b) with h | h
    · rcases min_choice a b with hm | hm
      · exact Or.inl (by rw [List.foldl_cons, h, hm])
      · refine Or.inr ?_
        rw [List.foldl_cons, h, hm]
        exact List.mem_cons_self b r
    · exact Or.inr (List.mem_cons_of_mem b h)

theorem npMin_mem {l : List ℚ} (h : l ≠ []) : npMin l ∈ l := by
  cases l with
  | nil => exact absurd rfl h
  | cons a r =>
    show r.foldl min a ∈ a :: r
    rcases foldl_min_mem r a with h' | h'
    · rw [h']; exact List.mem_cons_self a r
    · exact List.mem_cons_of_mem a h'

theorem npMin_le {l : List ℚ} {x : ℚ} (hx : x ∈ l) : npMin l ≤ x := by
  cases l with
  | nil => cases hx
  | cons a r =>
    show r.foldl min a ≤ x
    rcases List.mem_cons.mp hx with h | h
    · subst h; exact foldl_min_le_init r x
    · exact foldl_min_le_mem r a x h

theorem npMin_congr {l₁ l₂ : List ℚ} (h₁ : l₁ ≠ [])
    (hmem : ∀ x : ℚ, x ∈ l₁ ↔ x ∈ l₂) : npMin l₁ = npMin l₂ := by
  have h₂ : l₂ ≠ [] := by
    obtain ⟨a, ha⟩ := List.exists_mem_of_ne_nil l₁ h₁
    exact List.ne_nil_of_mem ((hmem a).mp ha)
  exact le_antisymm (npMin_le ((hmem _).mpr (npMin_mem h₂)))
    (npMin_le ((hmem _).mp (npMin_mem h₁)))

theorem foldl_max_init_le (r : List ℚ) : ∀ a : ℚ, a ≤ r.foldl max a := by
  induction r with
  | nil => intro a; exact le_refl a
  | cons b r ih => intro a; exact le_trans (le_max_left a b) (ih (max a b))

theorem foldl_max_mem_le (r : List ℚ) : ∀ (a x : ℚ), x ∈ r → x ≤ r.foldl max a := by
  induction r with
  | nil => intro a x hx; cases hx
  | cons b r ih =>
    intro a x hx
    rcases List.mem_cons.mp hx with h | h
    · subst h
      exact le_trans (le_max_right a x) (foldl_max_init_le r (max a x))
    · exact ih (max a b) x h

theorem foldl_max_mem (r : List ℚ) : ∀ a : ℚ, r.foldl max a = a ∨ r.foldl max a ∈ r := by
  induction r with
  | nil => intro a; exact Or.inl rfl
  | cons b r ih =>
    intro a
    rcases ih (max a b) with h | h
    · rcases max_choice a b with hm | hm
      · exact Or.inl (by rw [List.foldl_cons, h, hm])
      · refine Or.inr ?_
        rw [List.foldl_cons, h, hm]
        exact List.mem_cons_self b r
    · exact Or.inr (List.mem_cons_of_mem b h)

theorem npMax_mem {l : List ℚ} (h : l ≠ []) : npMax l ∈ l := by
  cases l with
  | nil => exact absurd rfl h
  | cons a r =>
    show r.foldl max a ∈ a :: r
    rcases foldl_max_mem r a with h' | h'
    · rw [h']; exact List.mem_cons_self a r
    · exact List.mem_cons_of_mem a h'

theorem le_npMax {l : List ℚ} {x : ℚ} (hx : x ∈ l) : x ≤ npMax l := by
  cases l with
  | nil => cases hx
  | cons a r =>
    show x ≤ r.foldl max a
    rcases List.mem_cons.mp hx with h | h
    · subst h; exact foldl_max_init_le r x
    · exact foldl_max_mem_le r a x h

theorem npMax_congr {l₁ l₂ : List ℚ} (h₁ : l₁ ≠ [])
    (hmem : ∀ x : ℚ, x ∈ l₁ ↔ x ∈ l₂) : npMax l₁ = npMax l₂ := by
  have h₂ : l₂ ≠ [] := by
    obtain ⟨a, ha⟩ := List.exists_mem_of_ne_nil l₁ h₁
    exact List.ne_nil_of_mem ((hmem a).mp ha)
  exact le_antisymm (le_npMax ((hmem _).mp (npMax_mem h₁)))
    (le_npMax ((hmem _).mpr (npMax_mem h₂)))

theorem npMin_npUnique {xs : List ℚ} (h : xs ≠ []) : npMin (npUnique xs) = npMin xs :=
  npMin_congr (npUnique_ne_nil h) (fun _ => mem_npUnique)

theorem npMax_npUnique {xs : List ℚ} (h : xs ≠ []) : npMax (npUnique xs) = npMax xs :=
  npMax_congr (npUnique_ne_nil h) (fun _ => mem_npUnique)

/-! ### Lemmas: variable shapes -/

theorem hasShape4_toVar4 {g : Cells} {n m : Nat} (hn : g.length = n)
    (hm : ∀ r ∈ g, r.length = m) : hasShape4 (toVar4 g) 1 1 n m := by
  refine ⟨rfl, ?_⟩
  intro p hp
  rw [show p = [g] from by simpa [toVar4, expand_dims] using hp]
  refine ⟨rfl, ?_⟩
  intro g' hg'
  rw [show g' = g from by simpa using hg']
  exact ⟨hn, hm⟩

theorem mem_zipWith {α β γ : Type} {f : α → β → γ} {l₁ : List α} {l₂ : List β} {c : γ}
    (h : c ∈ List.zipWith f l₁ l₂) : ∃ x ∈ l₁, ∃ y ∈ l₂, c = f x y := by
  induction l₁ generalizing l₂ with
  | nil => simp [List.zipWith] at h
  | cons a as ih =>
    cases l₂ with
    | nil => simp [List.zipWith] at h
    | cons b bs =>
      rcases List.mem_cons.mp h with h' | h'
      · exact ⟨a, List.mem_cons_self _ _, b, List.mem_cons_self _ _, h'⟩
      · obtain ⟨x, hx, y, hy, hc⟩ := ih h'
        exact ⟨x, List.mem_cons_of_mem _ hx, y, List.mem_cons_of_mem _ hy, hc⟩

theorem hasShape4_whereLE {k w : Var4} {n m : Nat} (thr : ℚ)
    (hk : hasShape4 k 1 1 n m) (hw : hasShape4 w 1 1 n m) :
    hasShape4 (whereLE k thr w) 1 1 n m := by
  obtain ⟨hk1, hk2⟩ := hk
  obtain ⟨hw1, hw2⟩ := hw
  simp only [whereLE, zip4]
  refine ⟨by simp [List.length_zipWith, hk1, hw1], ?_⟩
  intro p hp
  obtain ⟨pk, hpk, pw, hpw, rfl⟩ := mem_zipWith hp
  obtain ⟨hpk1, hpk2⟩ := hk2 pk hpk
  obtain ⟨hpw1, hpw2⟩ := hw2 pw hpw
  refine ⟨by simp [List.length_zipWith, hpk1, hpw1], ?_⟩
  intro g hg
  obtain ⟨gk, hgk, gw, hgw, rfl⟩ := mem_zipWith hg
  obtain ⟨hgk1, hgk2⟩ := hpk2 gk hgk
  obtain ⟨hgw1, hgw2⟩ := hpw2 gw hgw
  refine ⟨by simp [List.length_zipWith, hgk1, hgw1], ?_⟩
  intro r hr
  obtain ⟨rk, hrk, r2, hrw, rfl⟩ := mem_zipWith hr
  simp [List.length_zipWith, hgk2 rk hrk, hgw2 r2 hrw]

theorem dsShape_applyFlag {ds : Dataset} {n m : Nat} (h : dsShape ds n m)
    (k : VarName) (thr : ℚ) : dsShape (applyFlag ds k thr) n m := by
  intro w
  have hk := h k
  cases w
  · exact hasShape4_whereLE _ hk (h VarName.u)
  · exact hasShape4_whereLE _ hk (h VarName.v)
  · exact hasShape4_whereLE _ hk (h VarName.u_err)
  · exact hasShape4_whereLE _ hk (h VarName.v_err)
  · exact hasShape4_whereLE _ hk (h VarName.uv_covariance)
  · exact hasShape4_whereLE _ hk (h VarName.num_radials)

theorem dsShape_applyFlags (flags : List (VarName × ℚ)) :
    ∀ {ds : Dataset} {n m : Nat}, dsShape ds n m → dsShape (applyFlags ds flags) n m := by
  induction flags with
  | nil => intro ds n m h; exact h
  | cons p rest ih =>
    intro ds n m h
    exact ih (dsShape_applyFlag h p.1 p.2)

theorem applyFlags_invar {α : Type} (f : Dataset → α)
    (hf : ∀ ds k thr, f (applyFlag ds k thr) = f ds) :
    ∀ (flags : List (VarName × ℚ)) (ds : Dataset), f (applyFlags ds flags) = f ds := by
  intro flags
  induction flags with
  | nil => intro ds; rfl
  | cons p rest ih =>
    intro ds
    rw [show applyFlags ds (p :: rest) = applyFlags (applyFlag ds p.1 p.2) rest from rfl,
      ih, hf]

theorem dsShape_assembleRaw (grid : List (ℚ × ℚ)) (ex : Extracted)
    (time : Timestamp) (ua : List (String × String)) :
    dsShape (assembleRaw grid ex time ua)
      (npUnique (grid.map Prod.snd)).length (npUnique (grid.map Prod.fst)).length := by
  intro w
  cases w <;>
    exact hasShape4_toVar4 (by rw [length_scatter, length_tileNaN])
      (rows_scatter (fun len => len = (npUnique (grid.map Prod.fst)).length) _ _
        (rows_tileNaN _ _))

theorem getVar_assemble (grid : List (ℚ × ℚ)) (ex : Extracted) (time : Timestamp)
    (flags : List (VarName × ℚ)) (ua : List (String × String)) (method : Method)
    (w : VarName) :
    getVar (assemble grid ex time flags ua method) w =
      getVar (applyFlags (assembleRaw grid ex time ua) flags) w := by
  cases w <;> rfl

theorem assemble_latAxis (grid : List (ℚ × ℚ)) (ex : Extracted) (time : Timestamp)
    (flags : List (VarName × ℚ)) (ua : List (String × String)) (method : Method) :
    (assemble grid ex time flags ua method).latAxis = npUnique (grid.map Prod.snd) :=
  applyFlags_invar (fun d => d.latAxis) (fun _ _ _ => rfl) flags _

theorem assemble_lonAxis (grid : List (ℚ × ℚ)) (ex : Extracted) (time : Timestamp)
    (flags : List (VarName × ℚ)) (ua : List (String × String)) (method : Method) :
    (assemble grid ex time flags ua method).lonAxis = npUnique (grid.map Prod.fst) :=
  applyFlags_invar (fun d => d.lonAxis) (fun _ _ _ => rfl) flags _

theorem dsShape_assemble (grid : List (ℚ × ℚ)) (ex : Extracted) (time : Timestamp)
    (flags : List (VarName × ℚ)) (ua : List (String × String)) (method : Method) :
    dsShape (assemble grid ex time flags ua method)
      (npUnique (grid.map Prod.snd)).length (npUnique (grid.map Prod.fst)).length := by
  intro w
  rw [getVar_assemble]
  exact dsShape_applyFlags flags (dsShape_assembleRaw grid ex time ua) w

theorem assemble_timeAxis (grid : List (ℚ × ℚ)) (ex : Extracted) (time : Timestamp)
    (flags : List (VarName × ℚ)) (ua : List (String × String)) (method : Method) :
    (assemble grid ex time flags ua method).timeAxis = [time] :=
  applyFlags_invar (fun d => d.timeAxis) (fun _ _ _ => rfl) flags _

theorem assemble_zAxis (grid : List (ℚ × ℚ)) (ex : Extracted) (time : Timestamp)
    (flags : List (VarName × ℚ)) (ua : List (String × String)) (method : Method) :
    (assemble grid ex time flags ua method).zAxis = [0] :=
  applyFlags_invar (fun d => d.zAxis) (fun _ _ _ => rfl) flags _

theorem assemble_attrs (grid : List (ℚ × ℚ)) (ex : Extracted) (time : Timestamp)
    (flags : List (VarName × ℚ)) (ua : List (String × String)) (method : Method) :
    (assemble grid ex time flags ua method).attrs =
      { user_attributes := ua
        time_coverage_start := time
        time_coverage_end := time
        geospatial_lat_min := npMin (npUnique (grid.map Prod.snd))
        geospatial_lat_max := npMax (npUnique (grid.map Prod.snd))
        geospatial_lon_min := npMin (npUnique (grid.map Prod.fst))
        geospatial_lon_max := npMax (npUnique (grid.map Prod.fst))
        method := methodLabel method } := rfl

theorem assemble_pp (grid : List (ℚ × ℚ)) (ex : Extracted) (time : Timestamp)
    (flags : List (VarName × ℚ)) (ua : List (String × String)) (method : Method) :
    (assemble grid ex time flags ua method).processing_parameters =
      ex.mf.processing_parameters := rfl

theorem main_written (grid : List (ℚ × ℚ)) (tuv : TUV) (ex : Extracted)
    (save_dir : String) (ua : List (String × String)) (time : Timestamp)
    (flags : List (VarName × ℚ)) (domain : String) (method : Method)
    (hx : extractAll tuv method = some ex) :
    main grid (some tuv) save_dir ua time flags domain method =
      .written (joinPath save_dir (file_name (resolveDomain domain tuv.DomainName) time))
        (assemble grid ex time flags ua method) := by
  simp [main, hx]

theorem extractAll_oi_pp {tuv : TUV} {ex : Extracted}
    (h : extractAll tuv Method.oi = some ex) :
    ex.mf.processing_parameters.length = 8 := by
  unfold extractAll at h
  split at h
  · rw [Option.map_eq_some'] at h
    obtain ⟨mf, hmf, hex⟩ := h
    subst hex
    unfold extractMethod at hmf
    cases ho : tuv.oi
    · simp only [ho] at hmf
      cases hmf
    · simp only [ho] at hmf
      cases Option.some.inj hmf
      rfl
  · cases h

theorem extractAll_lsq_pp {tuv : TUV} {ex : Extracted}
    (h : extractAll tuv Method.lsq = some ex) :
    ex.mf.processing_parameters.length = 5 := by
  unfold extractAll at h
  split at h
  · rw [Option.map_eq_some'] at h
    obtain ⟨mf, hmf, hex⟩ := h
    subst hex
    unfold extractMethod at hmf
    cases ho : tuv.lsq
    · simp only [ho] at hmf
      cases hmf
    · simp only [ho] at hmf
      cases Option.some.inj hmf
      rfl
  · cases h

theorem getVar_assemble_noflags (grid : List (ℚ × ℚ)) (ex : Extracted)
    (time : Timestamp) (ua : List (String × String)) (method : Method) (w : VarName) :
    getVar (assemble grid ex time [] ua method) w =
      toVar4 (scatter
        (tileNaN (meshgridX (npUnique (grid.map Prod.fst)) (npUnique (grid.map Prod.snd))))
        (obsOf grid ex (varVals ex w))) := by
  cases w <;> rfl

/-! ### Claims -/

/-- Claim C1, counterexample.  The claim says that masking with the pair
`(u_err, 1)` leaves every variable other than `u_err` unaffected.  On a
one-cell grid with `u = 0` and `u_err = 5`, running `main` with flags
`{u_err: 1}` turns the `u` cell missing, while the identical run without
flags leaves it at `0` — so the pair's masking did affect `u`, a variable
other than `u_err`, even though `u`'s own value `0` is at or below the
threshold `1`. -/
theorem claim_C1_cex :
    outCell (main exGrid (some exTUV) "" [] exTime [(VarName.u_err, 1)] "" Method.oi)
        VarName.u 0 0 0 0 = some (some none) ∧
    outCell (main exGrid (some exTUV) "" [] exTime [] "" Method.oi)
        VarName.u 0 0 0 0 = some (some (some 0)) ∧
    VarName.u ≠ VarName.u_err ∧ ((0 : ℚ) ≤ 1) :=
  ⟨by decide, by decide, by decide, by decide⟩

/-- Claim C1 (amended): `ds.where(ds[k] <= v)` on line 182 masks the whole
dataset.  For every (variable, threshold) pair, every data variable `w` of
the dataset — including `w = k` — keeps its cell value exactly where the
flagged variable `k` holds a value at or below the threshold, and becomes
missing where `k`'s value exceeds the threshold or is itself missing;
out-of-range cells stay out of range. -/
theorem claim_C1_amended (ds : Dataset) (k : VarName) (thr : ℚ) (w : VarName)
    (t z i j : Nat) :
    cell4 (getVar (applyFlag ds k thr) w) t z i j =
      match cell4 (getVar ds k) t z i j, cell4 (getVar ds w) t z i j with
      | some kc, some wc => some (maskCellOp thr kc wc)
      | _, _ => none := by
  have h : getVar (applyFlag ds k thr) w = whereLE (getVar ds k) thr (getVar ds w) := by
    cases w <;> rfl
  rw [h]
  exact cell4_zip4 (maskCellOp thr) _ _ t z i j

/-- Claim C5: for every input file that either cannot be loaded at the top
level or is missing a field required by the selected method, `main` logs an
error and returns without writing any output file and without raising an
uncaught exception. -/
theorem claim_C5 (grid : List (ℚ × ℚ)) (matData : Option TUV) (save_dir : String)
    (ua : List (String × String)) (time : Timestamp) (flags : List (VarName × ℚ))
    (domain : String) (method : Method)
    (h : matData = none ∨ ∃ tuv, matData = some tuv ∧ extractAll tuv method = none) :
    ∃ msg, main grid matData save_dir ua time flags domain method =
      .errorLogged msg := by
  rcases h with rfl | ⟨tuv, rfl, hx⟩
  · exact ⟨"MAT file could not be loaded.", rfl⟩
  · exact ⟨"MAT file missing variable needed to create netCDF4 file", by simp [main, hx]⟩

/-- Witness for C5: an unloadable file, and a loadable file missing the OI
branch, both end in a logged error with no output written. -/
theorem claim_C5_witness :
    (∃ msg, main exGrid none "" [] exTime [] "" Method.oi = .errorLogged msg) ∧
    (∃ msg, main exGrid (some exTUVnoOI) "" [] exTime [] "" Method.oi =
      .errorLogged msg) :=
  ⟨claim_C5 exGrid none "" [] exTime [] "" Method.oi (Or.inl rfl),
   claim_C5 exGrid (some exTUVnoOI) "" [] exTime [] "" Method.oi
     (Or.inr ⟨exTUVnoOI, rfl, rfl⟩)⟩

/-- Claim C6: the output filename is a deterministic function of the
resolved domain name and the observation timestamp parsed from the source
filename; it equals `RU_<domain>_<YYYYMMDDTHHMMSSZ>.nc` joined to the save
directory. -/
theorem claim_C6 (grid : List (ℚ × ℚ)) (tuv : TUV) (ex : Extracted)
    (save_dir : String) (ua : List (String × String)) (time : Timestamp)
    (flags : List (VarName × ℚ)) (domain : String) (method : Method)
    (hx : extractAll tuv method = some ex) :
    ∃ ds, main grid (some tuv) save_dir ua time flags domain method =
      .written
        (joinPath save_dir
          ("RU_" ++ resolveDomain domain tuv.DomainName ++ "_" ++
            timeString time ++ ".nc"))
        ds :=
  ⟨_, main_written grid tuv ex save_dir ua time flags domain method hx⟩

/-- Witness for C6 at a concrete successful run. -/
theorem claim_C6_witness :
    ∃ ds, main exGrid (some exTUV) "out" [] exTime [] "" Method.oi =
      .written
        (joinPath "out"
          ("RU_" ++ resolveDomain "" exTUV.DomainName ++ "_" ++
            timeString exTime ++ ".nc"))
        ds :=
  claim_C6 exGrid exTUV exExtractOI "out" [] exTime [] "" Method.oi rfl

/-- Claim C8: for any two runs of `main` with identical input struct, grid
and invocation parameters, the assembled output is identical (the model
carries no process-time-dependent fields, matching the claim's exception
for them). -/
theorem claim_C8 (g₁ g₂ : List (ℚ × ℚ)) (m₁ m₂ : Option TUV) (s₁ s₂ : String)
    (ua₁ ua₂ : List (String × String)) (t₁ t₂ : Timestamp)
    (f₁ f₂ : List (VarName × ℚ)) (d₁ d₂ : String) (me₁ me₂ : Method)
    (hg : g₁ = g₂) (hm : m₁ = m₂) (hs : s₁ = s₂) (hua : ua₁ = ua₂) (ht : t₁ = t₂)
    (hf : f₁ = f₂) (hd : d₁ = d₂) (hme : me₁ = me₂) :
    main g₁ m₁ s₁ ua₁ t₁ f₁ d₁ me₁ = main g₂ m₂ s₂ ua₂ t₂ f₂ d₂ me₂ := by
  subst hg
  subst hm
  subst hs
  subst hua
  subst ht
  subst hf
  subst hd
  subst hme
  rfl

/-- Witness for C8 at one concrete pair of identical runs. -/
theorem claim_C8_witness :
    main exGrid (some exTUV) "" [] exTime [] "" Method.oi =
      main exGrid (some exTUV) "" [] exTime [] "" Method.oi :=
  claim_C8 exGrid exGrid (some exTUV) (some exTUV) "" "" [] [] exTime exTime
    [] [] "" "" Method.oi Method.oi rfl rfl rfl rfl rfl rfl rfl rfl

/-- Claim C9: any non-empty `domain` argument is replaced by the constant
`MARA` — the supplied override never reaches the filename, and the file's
`DomainName` is consulted only when no override is given. -/
theorem claim_C9 (d : String) (hd : d ≠ "") (fileDom fileDom2 : String)
    (t : Timestamp) :
    resolveDomain d fileDom = "MARA" ∧
    resolveDomain d fileDom = resolveDomain d fileDom2 ∧
    file_name (resolveDomain d fileDom) t = "RU_MARA_" ++ timeString t ++ ".nc" ∧
    resolveDomain "" fileDom = (if fileDom = "" then "MARA" else fileDom) := by
  have h1 : resolveDomain d fileDom = "MARA" := by simp [resolveDomain, hd]
  have h2 : resolveDomain d fileDom2 = "MARA" := by simp [resolveDomain, hd]
  refine ⟨h1, h1.trans h2.symm, ?_, ?_⟩
  · rw [h1]
    simp [file_name, timeString]
  · simp [resolveDomain]

/-- Witness for C9 with the concrete override `NJ`. -/
theorem claim_C9_witness :
    resolveDomain "NJ" "BPU" = "MARA" ∧
    resolveDomain "NJ" "BPU" = resolveDomain "NJ" "OTHER" ∧
    file_name (resolveDomain "NJ" "BPU") exTime =
      "RU_MARA_" ++ timeString exTime ++ ".nc" ∧
    resolveDomain "" "BPU" = (if ("BPU" : String) = "" then "MARA" else "BPU") :=
  claim_C9 "NJ" (by decide) "BPU" "OTHER" exTime

/-- Claim C2: for every valid input, each gridded data variable has
dimensions `(time=1, depth=1, lat, lon)` where the lat/lon sizes are the
axis lengths, and the coordinate axes are exactly the deduplicated, sorted
latitude/longitude column values of the grid file. -/
theorem claim_C2 (grid : List (ℚ × ℚ)) (tuv : TUV) (ex : Extracted)
    (save_dir : String) (ua : List (String × String)) (time : Timestamp)
    (flags : List (VarName × ℚ)) (domain : String) (method : Method)
    (hx : extractAll tuv method = some ex) :
    ∃ path ds,
      main grid (some tuv) save_dir ua time flags domain method = .written path ds ∧
      (∀ w : VarName,
        hasShape4 (getVar ds w) 1 1 ds.latAxis.length ds.lonAxis.length) ∧
      ds.timeAxis.length = 1 ∧ ds.zAxis.length = 1 ∧
      ds.latAxis = npUnique (grid.map Prod.snd) ∧
      ds.lonAxis = npUnique (grid.map Prod.fst) ∧
      ds.latAxis.Sorted (· ≤ ·) ∧ ds.latAxis.Nodup ∧
      (∀ q : ℚ, q ∈ ds.latAxis ↔ q ∈ grid.map Prod.snd) ∧
      ds.lonAxis.Sorted (· ≤ ·) ∧ ds.lonAxis.Nodup ∧
      (∀ q : ℚ, q ∈ ds.lonAxis ↔ q ∈ grid.map Prod.fst) := by
  refine ⟨_, _, main_written grid tuv ex save_dir ua time flags domain method hx,
    ?_, ?_, ?_, assemble_latAxis grid ex time flags ua method,
    assemble_lonAxis grid ex time flags ua method, ?_, ?_, ?_, ?_, ?_, ?_⟩
  · rw [assemble_latAxis, assemble_lonAxis]
    exact dsShape_assemble grid ex time flags ua method
  · rw [assemble_timeAxis]
    rfl
  · rw [assemble_zAxis]
    rfl
  · rw [assemble_latAxis]
    exact npUnique_sorted _
  · rw [assemble_latAxis]
    exact npUnique_nodup _
  · intro q
    rw [assemble_latAxis]
    exact mem_npUnique
  · rw [assemble_lonAxis]
    exact npUnique_sorted _
  · rw [assemble_lonAxis]
    exact npUnique_nodup _
  · intro q
    rw [assemble_lonAxis]
    exact mem_npUnique

/-- Witness for C2 at a concrete successful run. -/
theorem claim_C2_witness :
    ∃ path ds,
      main exGrid (some exTUV) "" [] exTime [] "" Method.oi = .written path ds ∧
      (∀ w : VarName,
        hasShape4 (getVar ds w) 1 1 ds.latAxis.length ds.lonAxis.length) ∧
      ds.timeAxis.length = 1 ∧ ds.zAxis.length = 1 ∧
      ds.latAxis = npUnique (exGrid.map Prod.snd) ∧
      ds.lonAxis = npUnique (exGrid.map Prod.fst) ∧
      ds.latAxis.Sorted (· ≤ ·) ∧ ds.latAxis.Nodup ∧
      (∀ q : ℚ, q ∈ ds.latAxis ↔ q ∈ exGrid.map Prod.snd) ∧
      ds.lonAxis.Sorted (· ≤ ·) ∧ ds.lonAxis.Nodup ∧
      (∀ q : ℚ, q ∈ ds.lonAxis ↔ q ∈ exGrid.map Prod.fst) :=
  claim_C2 exGrid exTUV exExtractOI "" [] exTime [] "" Method.oi rfl

/-- Claim C3: in a run without masking, each in-bounds grid cell of each
data variable to which no observation was mapped holds the missing value,
and each cell to which exactly one observation was mapped holds that
observation's value. -/
theorem claim_C3 (grid : List (ℚ × ℚ)) (tuv : TUV) (ex : Extracted)
    (save_dir : String) (ua : List (String × String)) (time : Timestamp)
    (domain : String) (method : Method) (w : VarName) (i j : Nat)
    (hx : extractAll tuv method = some ex)
    (hi : i < (npUnique (grid.map Prod.snd)).length)
    (hj : j < (npUnique (grid.map Prod.fst)).length) :
    ∃ path ds,
      main grid (some tuv) save_dir ua time [] domain method = .written path ds ∧
      (mappedAt grid ex w i j = [] →
        cell4 (getVar ds w) 0 0 i j = some none) ∧
      (∀ o : Nat × Nat × ℚ, mappedAt grid ex w i j = [o] →
        cell4 (getVar ds w) 0 0 i j = some (some o.2.2)) := by
  have hb1 : i < (tileNaN (meshgridX (npUnique (grid.map Prod.fst))
      (npUnique (grid.map Prod.snd)))).length := by rwa [length_tileNaN]
  have hb2 : ∀ r ∈ tileNaN (meshgridX (npUnique (grid.map Prod.fst))
      (npUnique (grid.map Prod.snd))), j < r.length := by
    intro r hr
    rw [rows_tileNaN _ _ r hr]
    exact hj
  have hs := cellAt_scatter i j (obsOf grid ex (varVals ex w)) _ hb1 hb2
  refine ⟨_, _, main_written grid tuv ex save_dir ua time [] domain method hx, ?_, ?_⟩
  · intro h
    rw [getVar_assemble_noflags]
    show cellAt (scatter (tileNaN (meshgridX (npUnique (grid.map Prod.fst))
      (npUnique (grid.map Prod.snd)))) (obsOf grid ex (varVals ex w))) i j = some none
    rw [hs]
    unfold mappedAt at h
    rw [h]
    exact cellAt_tileNaN _ _ hi hj
  · intro o h
    rw [getVar_assemble_noflags]
    show cellAt (scatter (tileNaN (meshgridX (npUnique (grid.map Prod.fst))
      (npUnique (grid.map Prod.snd)))) (obsOf grid ex (varVals ex w))) i j =
      some (some o.2.2)
    rw [hs]
    unfold mappedAt at h
    rw [h]
    rfl

/-- Witness for C3 at a concrete run on the one-cell grid. -/
theorem claim_C3_witness :
    ∃ path ds,
      main exGrid (some exTUV) "" [] exTime [] "" Method.oi = .written path ds ∧
      (mappedAt exGrid exExtractOI VarName.u 0 0 = [] →
        cell4 (getVar ds VarName.u) 0 0 0 0 = some none) ∧
      (∀ o : Nat × Nat × ℚ, mappedAt exGrid exExtractOI VarName.u 0 0 = [o] →
        cell4 (getVar ds VarName.u) 0 0 0 0 = some (some o.2.2)) :=
  claim_C3 exGrid exTUV exExtractOI "" [] exTime "" Method.oi VarName.u 0 0 rfl
    (by decide) (by decide)

/-- Claim C4: when two or more observations map to the same grid cell, the
cell holds the value of the observation latest in input array order (no
averaging). -/
theorem claim_C4 (grid : List (ℚ × ℚ)) (tuv : TUV) (ex : Extracted)
    (save_dir : String) (ua : List (String × String)) (time : Timestamp)
    (domain : String) (method : Method) (w : VarName) (i j : Nat)
    (o : Nat × Nat × ℚ) (hx : extractAll tuv method = some ex)
    (hi : i < (npUnique (grid.map Prod.snd)).length)
    (hj : j < (npUnique (grid.map Prod.fst)).length)
    (_hcol : 2 ≤ (mappedAt grid ex w i j).length)
    (hlast : (mappedAt grid ex w i j).getLast? = some o) :
    ∃ path ds,
      main grid (some tuv) save_dir ua time [] domain method = .written path ds ∧
      cell4 (getVar ds w) 0 0 i j = some (some o.2.2) := by
  have hb1 : i < (tileNaN (meshgridX (npUnique (grid.map Prod.fst))
      (npUnique (grid.map Prod.snd)))).length := by rwa [length_tileNaN]
  have hb2 : ∀ r ∈ tileNaN (meshgridX (npUnique (grid.map Prod.fst))
      (npUnique (grid.map Prod.snd))), j < r.length := by
    intro r hr
    rw [rows_tileNaN _ _ r hr]
    exact hj
  have hs := cellAt_scatter i j (obsOf grid ex (varVals ex w)) _ hb1 hb2
  refine ⟨_, _, main_written grid tuv ex save_dir ua time [] domain method hx, ?_⟩
  rw [getVar_assemble_noflags]
  show cellAt (scatter (tileNaN (meshgridX (npUnique (grid.map Prod.fst))
    (npUnique (grid.map Prod.snd)))) (obsOf grid ex (varVals ex w))) i j =
    some (some o.2.2)
  rw [hs]
  unfold mappedAt at hlast
  rw [hlast]

/-- Witness for C4: two observations collide on the only grid cell with `u`
values `3` then `7`; the cell holds `7`. -/
theorem claim_C4_witness :
    ∃ path ds,
      main exGrid (some exTUVcollide) "" [] exTime [] "" Method.oi =
        .written path ds ∧
      cell4 (getVar ds VarName.u) 0 0 0 0 = some (some (7 : ℚ)) := by
  have h := claim_C4 exGrid exTUVcollide exExtractCollide "" [] exTime "" Method.oi
    VarName.u 0 0 (0, 0, (7 : ℚ)) rfl (by decide) (by decide) (by decide) (by decide)
  exact h

/-- Claim C7, counterexample.  The claim says the two methods produce
identical dimension shapes for every variable.  On the same processable
input, the `processing_parameters` variable has length 8 under `oi` and
length 5 under `lsq`. -/
theorem claim_C7_cex :
    ppLen (main exGrid (some exTUV) "" [] exTime [] "" Method.oi) = some 8 ∧
    ppLen (main exGrid (some exTUV) "" [] exTime [] "" Method.lsq) = some 5 ∧
    ppLen (main exGrid (some exTUV) "" [] exTime [] "" Method.oi) ≠
      ppLen (main exGrid (some exTUV) "" [] exTime [] "" Method.lsq) :=
  ⟨rfl, rfl, by decide⟩

/-- Claim C7 (amended): for every input processable under both methods, the
two runs produce the same set of variables and identical shapes for the six
gridded data variables; the `processing_parameters` vector however has
length 8 under `oi` and length 5 under `lsq`, and the provenance metadata
(the `method` attribute, error-variable comments) differs. -/
theorem claim_C7_amended (grid : List (ℚ × ℚ)) (tuv : TUV) (exo exl : Extracted)
    (save_dir : String) (ua : List (String × String)) (time : Timestamp)
    (flags : List (VarName × ℚ)) (domain : String)
    (ho : extractAll tuv Method.oi = some exo)
    (hl : extractAll tuv Method.lsq = some exl) :
    ∃ po dso pl dsl,
      main grid (some tuv) save_dir ua time flags domain Method.oi =
        .written po dso ∧
      main grid (some tuv) save_dir ua time flags domain Method.lsq =
        .written pl dsl ∧
      (∀ w : VarName,
        hasShape4 (getVar dso w) 1 1 (npUnique (grid.map Prod.snd)).length
          (npUnique (grid.map Prod.fst)).length ∧
        hasShape4 (getVar dsl w) 1 1 (npUnique (grid.map Prod.snd)).length
          (npUnique (grid.map Prod.fst)).length) ∧
      dso.processing_parameters.length = 8 ∧
      dsl.processing_parameters.length = 5 ∧
      dso.attrs.method = "Optimal Interpolation" ∧
      dsl.attrs.method = "Unweighted Least Squares" := by
  refine ⟨_, _, _, _,
    main_written grid tuv exo save_dir ua time flags domain Method.oi ho,
    main_written grid tuv exl save_dir ua time flags domain Method.lsq hl,
    ?_, ?_, ?_, rfl, rfl⟩
  · intro w
    exact ⟨dsShape_assemble grid exo time flags ua Method.oi w,
      dsShape_assemble grid exl time flags ua Method.lsq w⟩
  · rw [assemble_pp]
    exact extractAll_oi_pp ho
  · rw [assemble_pp]
    exact extractAll_lsq_pp hl

/-- Witness for the amended C7 at a concrete input processable under both
methods. -/
theorem claim_C7_amended_witness :
    ∃ po dso pl dsl,
      main exGrid (some exTUV) "" [] exTime [] "" Method.oi = .written po dso ∧
      main exGrid (some exTUV) "" [] exTime [] "" Method.lsq = .written pl dsl ∧
      (∀ w : VarName,
        hasShape4 (getVar dso w) 1 1 (npUnique (exGrid.map Prod.snd)).length
          (npUnique (exGrid.map Prod.fst)).length ∧
        hasShape4 (getVar dsl w) 1 1 (npUnique (exGrid.map Prod.snd)).length
          (npUnique (exGrid.map Prod.fst)).length) ∧
      dso.processing_parameters.length = 8 ∧
      dsl.processing_parameters.length = 5 ∧
      dso.attrs.method = "Optimal Interpolation" ∧
      dsl.attrs.method = "Unweighted Least Squares" :=
  claim_C7_amended exGrid exTUV exExtractOI exExtractLSQ "" [] exTime [] ""
    rfl rfl

/-- Claim C10: the `geospatial_lat/lon_min/max` global attributes equal the
minimum and maximum of the grid-file latitude and longitude values,
independent of where the observations lie. -/
theorem claim_C10 (grid : List (ℚ × ℚ)) (tuv tuv₂ : TUV) (ex ex₂ : Extracted)
    (save_dir : String) (ua : List (String × String)) (time : Timestamp)
    (flags flags₂ : List (VarName × ℚ)) (domain : String) (method method₂ : Method)
    (hx : extractAll tuv method = some ex)
    (hx₂ : extractAll tuv₂ method₂ = some ex₂)
    (hg : grid ≠ []) :
    ∃ path ds path₂ ds₂,
      main grid (some tuv) save_dir ua time flags domain method =
        .written path ds ∧
      main grid (some tuv₂) save_dir ua time flags₂ domain method₂ =
        .written path₂ ds₂ ∧
      ds.attrs.geospatial_lat_min = npMin (grid.map Prod.snd) ∧
      ds.attrs.geospatial_lat_max = npMax (grid.map Prod.snd) ∧
      ds.attrs.geospatial_lon_min = npMin (grid.map Prod.fst) ∧
      ds.attrs.geospatial_lon_max = npMax (grid.map Prod.fst) ∧
      ds₂.attrs.geospatial_lat_min = ds.attrs.geospatial_lat_min ∧
      ds₂.attrs.geospatial_lat_max = ds.attrs.geospatial_lat_max ∧
      ds₂.attrs.geospatial_lon_min = ds.attrs.geospatial_lon_min ∧
      ds₂.attrs.geospatial_lon_max = ds.attrs.geospatial_lon_max := by
  have hlat : grid.map Prod.snd ≠ [] := by
    intro h
    exact hg (List.map_eq_nil_iff.mp h)
  have hlon : grid.map Prod.fst ≠ [] := by
    intro h
    exact hg (List.map_eq_nil_iff.mp h)
  refine ⟨_, _, _, _,
    main_written grid tuv ex save_dir ua time flags domain method hx,
    main_written grid tuv₂ ex₂ save_dir ua time flags₂ domain method₂ hx₂,
    ?_, ?_, ?_, ?_, ?_, ?_, ?_, ?_⟩
  · rw [assemble_attrs]
    exact npMin_npUnique hlat
  · rw [assemble_attrs]
    exact npMax_npUnique hlat
  · rw [assemble_attrs]
    exact npMin_npUnique hlon
  · rw [assemble_attrs]
    exact npMax_npUnique hlon
  · simp [assemble_attrs]
  · simp [assemble_attrs]
  · simp [assemble_attrs]
  · simp [assemble_attrs]

/-- Witness for C10: the same grid with two different observation structs
yields the same geospatial bounds. -/
theorem claim_C10_witness :
    ∃ path ds path₂ ds₂,
      main exGrid (some exTUV) "" [] exTime [] "" Method.oi = .written path ds ∧
      main exGrid (some exTUVcollide) "" [] exTime [] "" Method.oi =
        .written path₂ ds₂ ∧
      ds.attrs.geospatial_lat_min = npMin (exGrid.map Prod.snd) ∧
      ds.attrs.geospatial_lat_max = npMax (exGrid.map Prod.snd) ∧
      ds.attrs.geospatial_lon_min = npMin (exGrid.map Prod.fst) ∧
      ds.attrs.geospatial_lon_max = npMax (exGrid.map Prod.fst) ∧
      ds₂.attrs.geospatial_lat_min = ds.attrs.geospatial_lat_min ∧
      ds₂.attrs.geospatial_lat_max = ds.attrs.geospatial_lat_max ∧
      ds₂.attrs.geospatial_lon_min = ds.attrs.geospatial_lon_min ∧
      ds₂.attrs.geospatial_lon_max = ds.attrs.geospatial_lon_max :=
  claim_C10 exGrid exTUV exTUVcollide exExtractOI exExtractCollide "" [] exTime
    [] [] "" Method.oi Method.oi rfl rfl (by decide)

end Codar
